import Mathlib

/-!
Verification of the StringWiggler lifecycle, logging and composition-root
behaviour against its sources.

The repository sources available here are the three composition roots
(main_linux.cpp for X11, the Wayland main, the macOS AppDelegate), the
renderer.h header, and the design documents.  The bodies of
Renderer::destroy, Renderer::getSupportedPhysicalDevices and the whole
Logger class are declared and called but their translation units are not
present, so those operations are modelled from the specification, as
marked in their doc comments.  Everything else is translated directly
from the composition-root sources.
-/

namespace StringWiggler

/-- Tri-state lifecycle flag of every component (spec section 3). -/
inductive Lifecycle
| Active
| Dying
| Stopped
deriving DecidableEq, Repr

/-- The four observable shutdown steps 2 to 5 of the section 4.1 protocol:
invoking onIsAboutToStop, clearing the outbound callback slots, releasing
owned resources (for the Renderer this includes the GPU-idle wait), and
invoking onHasStopped. -/
inductive ShutdownStep
| aboutToStopFired
| slotsCleared
| resourcesReleased
| hasStoppedFired
deriving DecidableEq, Repr

/-- Modelled from the spec: the uniform component state of section 3 and 4.1
(Logger, Window, Engine).  The component bodies (renderer.cpp, logger.cpp)
are not among the sources; only renderer.h declares destroy().  A callback
slot is a nullable (function, context) pair, modelled as an opaque Option
tag; resourcesHeld records whether step 4 has released the owned
resources. -/
structure Component where
  state : Lifecycle
  onLog : Option Nat
  onIsAboutToStop : Option Nat
  onHasStopped : Option Nat
  resourcesHeld : Bool
deriving DecidableEq, Repr

namespace Component

/-- Modelled from the spec: destroy()/stop() of section 4.1 (the body of
Renderer::destroy is not among the sources; renderer.h line 34 declares it).
Step 1 test-and-sets the lifecycle flag and returns immediately when the
flag is not Active; otherwise steps 2 to 5 run to completion and the flag
ends at Stopped.  The returned list is the trace of shutdown steps this
call executed. -/
def destroy (c : Component) : Component × List ShutdownStep :=
  match c.state with
  | Lifecycle.Active =>
      (⟨Lifecycle.Stopped, none, none, none, false⟩,
       [ShutdownStep.aboutToStopFired, ShutdownStep.slotsCleared,
        ShutdownStep.resourcesReleased, ShutdownStep.hasStoppedFired])
  | _ => (c, [])

/-- Calling destroy n times back-to-back, accumulating the executed
shutdown steps of all calls. -/
def destroyN : Nat → Component → Component × List ShutdownStep
  | 0, c => (c, [])
  | n + 1, c =>
      let r := destroy c
      let r2 := destroyN n r.1
      (r2.1, r.2 ++ r2.2)

/-- Modelled from the spec: render() no-ops unless the lifecycle flag is
Active (section 4.1 last bullet, section 4.3).  The Bool records whether
the call did any work, i.e. touched the owned resources. -/
def render (c : Component) : Component × Bool :=
  if c.state = Lifecycle.Active then (c, true) else (c, false)

/-- Modelled from the spec: write() no-ops unless the lifecycle flag is
Active (section 4.1 last bullet, section 4.4). -/
def write (c : Component) (_m : String) : Component × Bool :=
  if c.state = Lifecycle.Active then (c, true) else (c, false)

/-- Modelled from the spec: run() no-ops unless the lifecycle flag is
Active (section 4.1 last bullet, section 4.2). -/
def run (c : Component) : Component × Bool :=
  if c.state = Lifecycle.Active then (c, true) else (c, false)

theorem destroy_state_not_active (c : Component) :
    (destroy c).1.state ≠ Lifecycle.Active := by
  cases h : c.state <;> simp [destroy, h]

theorem destroy_of_not_active (c : Component) (h : c.state ≠ Lifecycle.Active) :
    destroy c = (c, []) := by
  cases hs : c.state
  · exact absurd hs h
  · simp [destroy, hs]
  · simp [destroy, hs]

theorem destroyN_of_not_active (n : Nat) (c : Component)
    (h : c.state ≠ Lifecycle.Active) : destroyN n c = (c, []) := by
  induction n with
  | zero => rfl
  | succ n ih =>
      simp [destroyN, destroy_of_not_active c h, ih]

end Component

/-- C1: destroy()/stop() is idempotent.  However many times destroy is
called back-to-back or re-entrantly (n at least 1), the resulting state
and the accumulated trace of executed shutdown steps are exactly those of
the first call, and from an Active component that first call executes
steps 2 to 5 (onIsAboutToStop, slot clearing, resource release including
the GPU-idle wait, onHasStopped) exactly once each. -/
theorem c1_destroy_idempotent (c : Component) (n : Nat) (h : 1 ≤ n) :
    Component.destroyN n c = Component.destroy c ∧
    (c.state = Lifecycle.Active →
      (Component.destroy c).2 =
        [ShutdownStep.aboutToStopFired, ShutdownStep.slotsCleared,
         ShutdownStep.resourcesReleased, ShutdownStep.hasStoppedFired]) := by
  constructor
  · obtain ⟨m, rfl⟩ : ∃ m, n = m + 1 := ⟨n - 1, (Nat.succ_pred_eq_of_pos h).symm⟩
    simp [Component.destroyN,
      Component.destroyN_of_not_active m _ (Component.destroy_state_not_active c)]
  · intro hA
    simp [Component.destroy, hA]

/-- Witness for C1 at a concrete Active renderer-like component and n = 2:
two consecutive destroy() calls release the resources exactly once. -/
theorem c1_destroy_idempotent_witness :
    Component.destroyN 2 ⟨Lifecycle.Active, some 1, some 2, some 3, true⟩ =
      Component.destroy ⟨Lifecycle.Active, some 1, some 2, some 3, true⟩ ∧
    ((⟨Lifecycle.Active, some 1, some 2, some 3, true⟩ : Component).state =
        Lifecycle.Active →
      (Component.destroy ⟨Lifecycle.Active, some 1, some 2, some 3, true⟩).2 =
        [ShutdownStep.aboutToStopFired, ShutdownStep.slotsCleared,
         ShutdownStep.resourcesReleased, ShutdownStep.hasStoppedFired]) :=
  c1_destroy_idempotent ⟨Lifecycle.Active, some 1, some 2, some 3, true⟩ 2
    (by decide)

/-- C2: after destroy() has begun on any component, every other public
operation (render, write, run) is an observable no-op: the state is left
untouched and no work is done (no resource access, no error).  The
lifecycle-flag check at the top of each operation is what produces this. -/
theorem c2_ops_noop_after_destroy (c : Component) (m : String) :
    Component.render (Component.destroy c).1 = ((Component.destroy c).1, false) ∧
    Component.write (Component.destroy c).1 m = ((Component.destroy c).1, false) ∧
    Component.run (Component.destroy c).1 = ((Component.destroy c).1, false) := by
  have h := Component.destroy_state_not_active c
  refine ⟨?_, ?_, ?_⟩ <;> simp [Component.render, Component.write, Component.run, h]

/-- Modelled from the spec: the Logger state of section 4.4 (logger.h and
logger.cpp are not among the sources; the composition roots call
logger.start, logger.logWrite).  queue is the internal FIFO the producers
append to; persisted is the byte-append destination contents, as a list of
messages in the order they were appended. -/
structure LoggerSt where
  state : Lifecycle
  queue : List String
  persisted : List String
deriving DecidableEq, Repr

/-- The logger of a freshly started composition root: active, empty queue,
empty destination file. -/
def loggerInit : LoggerSt :=
  ⟨Lifecycle.Active, [], []⟩

/-- An action interleaved before stop() is called: a producer call of
write(message), or one iteration of the internal writer task dequeueing
one message to storage. -/
inductive LogAct
| write (m : String)
| writerStep
deriving DecidableEq, Repr

namespace Logger

/-- Modelled from the spec: write(message) appends to the internal FIFO
queue and returns immediately, and no-ops unless the flag is Active
(section 4.4, section 4.1 last bullet). -/
def logWrite (l : LoggerSt) (m : String) : LoggerSt :=
  if l.state = Lifecycle.Active then { l with queue := l.queue ++ [m] } else l

/-- Modelled from the spec: one iteration of the internal writer task,
which continuously dequeues and appends messages to storage in strict
arrival order (section 4.4). -/
def writerStep (l : LoggerSt) : LoggerSt :=
  match l.queue with
  | [] => l
  | m :: rest => { l with queue := rest, persisted := l.persisted ++ [m] }

/-- Modelled from the spec: stop() per section 4.1 and 4.4; step 4 drains
the remaining queue contents to storage and joins the writer task before
completing, so no queued message is dropped. -/
def stop (l : LoggerSt) : LoggerSt :=
  if l.state = Lifecycle.Active then
    ⟨Lifecycle.Stopped, [], l.persisted ++ l.queue⟩
  else l

/-- Run a sequence of interleaved producer writes and writer-task
iterations. -/
def runActs : LoggerSt → List LogAct → LoggerSt
  | l, [] => l
  | l, LogAct.write m :: rest => runActs (logWrite l m) rest
  | l, LogAct.writerStep :: rest => runActs (writerStep l) rest

/-- The messages a sequence of actions writes, in arrival order. -/
def writesOf : List LogAct → List String
  | [] => []
  | LogAct.write m :: rest => m :: writesOf rest
  | LogAct.writerStep :: rest => writesOf rest

theorem runActs_active_invariant (acts : List LogAct) :
    ∀ l : LoggerSt, l.state = Lifecycle.Active →
      (runActs l acts).state = Lifecycle.Active ∧
      (runActs l acts).persisted ++ (runActs l acts).queue =
        l.persisted ++ l.queue ++ writesOf acts := by
  induction acts with
  | nil => intro l h; simp [runActs, writesOf, h]
  | cons a rest ih =>
      intro l h
      cases a with
      | write m =>
          have := ih (logWrite l m) (by simp [logWrite, h])
          simpa [runActs, writesOf, logWrite, h, List.append_assoc] using this
      | writerStep =>
          have hs : (writerStep l).state = Lifecycle.Active := by
            cases hq : l.queue <;> simp [Logger.writerStep, hq, h]
          have := ih (writerStep l) hs
          rcases this with ⟨h1, h2⟩
          refine ⟨by simpa [runActs] using h1, ?_⟩
          have hpq : (writerStep l).persisted ++ (writerStep l).queue =
              l.persisted ++ l.queue := by
            cases hq : l.queue <;> simp [Logger.writerStep, hq]
          calc (runActs l (LogAct.writerStep :: rest)).persisted ++
              (runActs l (LogAct.writerStep :: rest)).queue
              = (runActs (writerStep l) rest).persisted ++
                (runActs (writerStep l) rest).queue := by simp [runActs]
            _ = (writerStep l).persisted ++ (writerStep l).queue ++
                writesOf rest := h2
            _ = l.persisted ++ l.queue ++ writesOf rest := by rw [hpq]

end Logger

/-- C4: no queued message is dropped on shutdown.  Starting from an active
logger with an empty queue, after any interleaving of producer writes and
writer-task iterations, stop() drains the rest of the queue, and every
message enqueued before the call is present in the persisted output, in
order: the persisted contents are exactly the prior contents followed by
all the written messages. -/
theorem c4_stop_drains_queue (l : LoggerSt) (acts : List LogAct)
    (h1 : l.state = Lifecycle.Active) (h2 : l.queue = []) :
    (Logger.stop (Logger.runActs l acts)).persisted =
      l.persisted ++ Logger.writesOf acts ∧
    (Logger.stop (Logger.runActs l acts)).queue = [] := by
  obtain ⟨hA, hPQ⟩ := Logger.runActs_active_invariant acts l h1
  rw [h2] at hPQ
  constructor
  · simp only [Logger.stop, hA, if_pos]
    simpa using hPQ
  · simp [Logger.stop, hA]

/-- Witness for C4: enqueue two messages, let the writer persist one, then
stop(); both messages are on disk. -/
theorem c4_stop_drains_queue_witness :
    (Logger.stop (Logger.runActs loggerInit
        [LogAct.write "hello", LogAct.writerStep, LogAct.write "world"])).persisted =
      loggerInit.persisted ++ Logger.writesOf
        [LogAct.write "hello", LogAct.writerStep, LogAct.write "world"] ∧
    (Logger.stop (Logger.runActs loggerInit
        [LogAct.write "hello", LogAct.writerStep, LogAct.write "world"])).queue = [] :=
  c4_stop_drains_queue loggerInit
    [LogAct.write "hello", LogAct.writerStep, LogAct.write "world"] rfl rfl

/-- C5: the persisted output preserves the global arrival order exactly.
At every point of any interleaving of producer writes and writer-task
iterations starting from a fresh logger, the persisted messages are a
prefix of the arrival sequence (the not-yet-persisted suffix is exactly
the queue), so message N is never written after a later-arriving message
N+1. -/
theorem c5_fifo_order (acts : List LogAct) :
    Logger.writesOf acts =
      (Logger.runActs loggerInit acts).persisted ++
        (Logger.runActs loggerInit acts).queue := by
  have := Logger.runActs_active_invariant acts loggerInit rfl
  simpa [loggerInit] using this.2.symm

/-- Observable events of a composition-root run: a message handed to the
logger, the renderer being destroyed, the native window/surface/display
resources being destroyed, a logical device being created from a given
physical device, and (macOS) the app requesting termination. -/
inductive Ev
| logWrite (s : String)
| rendererDestroy
| destroyWindow
| createLogical (d : Nat)
| terminate
deriving DecidableEq, Repr

/-- Modelled from the spec: Renderer::getSupportedPhysicalDevices (declared
at renderer.h line 35; the body is not among the sources).  It filters the
enumerated physical devices by the required capability set and fails
exactly when no device satisfies it (section 4.3, section 6 exit-code
contract).  Physical devices are opaque Nat handles here. -/
def getSupportedPhysicalDevices (all : List Nat) (capable : Nat → Bool) :
    Bool × List Nat :=
  let supported := all.filter capable
  (!supported.isEmpty, supported)

/-- The per-device info lines main logs after enumerating the supported
devices (device names are opaque, rendered from the handle). -/
def deviceInfoLogs (ds : List Nat) : List Ev :=
  ds.map (fun d => Ev.logWrite ("[INFO] device " ++ toString d ++ "."))

/-- The info line main logs after createLogicalDevice succeeds. -/
def selectedDeviceLog (d : Nat) : Ev :=
  Ev.logWrite ("[INFO] Selected device " ++ toString d ++ " for rendering.")

/-- Environment of the X11 composition root main_linux.cpp: the outcome of
each fallible platform/renderer call, the opaque error strings the
renderer reports, and the enumerated physical devices with their
capability predicate. -/
structure X11Env where
  loggerStartOk : Bool
  xOpenDisplayOk : Bool
  xCreateWindowOk : Bool
  rendererInitOk : Bool
  initErrMsg : String
  physicalDevices : List Nat
  capable : Nat → Bool
  devicesErrMsg : String
  createLogicalOk : Bool
  logicalErrMsg : String

/-- createWindow of main_linux.cpp lines 58 to 93, success flag: it
succeeds when XOpenDisplay and XCreateWindow both succeed. -/
def windowOkX (env : X11Env) : Bool :=
  env.xOpenDisplayOk && env.xCreateWindowOk

/-- createWindow of main_linux.cpp lines 58 to 93, logged events: each
failure branch logs one error line before returning false. -/
def createWindowEvsX (env : X11Env) : List Ev :=
  if !env.xOpenDisplayOk then
    [Ev.logWrite "[ERROR] Failed to open X11 display."]
  else if !env.xCreateWindowOk then
    [Ev.logWrite "[ERROR] Failed to create X11 window."]
  else []

/-- main of main_linux.cpp lines 135 to 200, as the pair of the event
trace and the process exit code (EXIT_SUCCESS = 0, EXIT_FAILURE = 1).
The event loop (processEvents) emits no observable events and terminates
when running becomes false, so it contributes nothing to the trace. -/
def mainX11 (env : X11Env) : List Ev × Nat :=
  if !env.loggerStartOk then ([], 1)
  else if !windowOkX env then (createWindowEvsX env, 1)
  else if !env.rendererInitOk then
    (createWindowEvsX env ++
      [Ev.logWrite ("[ERROR] " ++ env.initErrMsg), Ev.destroyWindow], 1)
  else if !(getSupportedPhysicalDevices env.physicalDevices env.capable).1 then
    (createWindowEvsX env ++
      [Ev.logWrite ("[ERROR] " ++ env.devicesErrMsg),
       Ev.rendererDestroy, Ev.destroyWindow], 1)
  else
    let supported := (getSupportedPhysicalDevices env.physicalDevices env.capable).2
    let infoEvs := Ev.logWrite "[INFO] Found supported Vulkan physical devices:" ::
      deviceInfoLogs supported
    if !env.createLogicalOk then
      (createWindowEvsX env ++ infoEvs ++
        [Ev.createLogical (supported.headD 0),
         Ev.logWrite ("[ERROR] " ++ env.logicalErrMsg),
         Ev.rendererDestroy, Ev.destroyWindow], 1)
    else
      (createWindowEvsX env ++ infoEvs ++
        [Ev.createLogical (supported.headD 0),
         selectedDeviceLog (supported.headD 0),
         Ev.rendererDestroy, Ev.destroyWindow], 0)

/-- Environment of the Wayland composition root: the outcome of each
fallible call of createWindow, the renderer outcomes, and the per-loop
iteration observations of wl_display_get_error (true means the display
reported an error on that iteration; the list ends when running becomes
false). -/
structure WaylandEnv where
  loggerStartOk : Bool
  wlDisplayOk : Bool
  wlCompositorOk : Bool
  wlWmBaseOk : Bool
  wlSurfaceOk : Bool
  wlXdgSurfaceOk : Bool
  wlToplevelOk : Bool
  rendererInitOk : Bool
  initErrMsg : String
  physicalDevices : List Nat
  capable : Nat → Bool
  devicesErrMsg : String
  createLogicalOk : Bool
  logicalErrMsg : String
  loopErrors : List Bool

/-- createWindow of the Wayland main, success flag: all six platform
object creations must succeed. -/
def windowOkW (env : WaylandEnv) : Bool :=
  env.wlDisplayOk && env.wlCompositorOk && env.wlWmBaseOk && env.wlSurfaceOk &&
    env.wlXdgSurfaceOk && env.wlToplevelOk

/-- createWindow of the Wayland main lines 150 to 211, logged events: each
failure branch logs one error line before returning false. -/
def createWindowEvsW (env : WaylandEnv) : List Ev :=
  if !env.wlDisplayOk then
    [Ev.logWrite "[ERROR] Failed to connect to Wayland display."]
  else if !env.wlCompositorOk then
    [Ev.logWrite "[ERROR] Failed to get Wayland compositor."]
  else if !env.wlWmBaseOk then
    [Ev.logWrite "[ERROR] Failed to get XDG WM base. Compositor may not support xdg-shell."]
  else if !env.wlSurfaceOk then
    [Ev.logWrite "[ERROR] Failed to create Wayland surface."]
  else if !env.wlXdgSurfaceOk then
    [Ev.logWrite "[ERROR] Failed to create XDG surface."]
  else if !env.wlToplevelOk then
    [Ev.logWrite "[ERROR] Failed to create XDG toplevel."]
  else []

/-- The Wayland main event loop, lines 308 to 319: each iteration pumps
and flushes, then checks wl_display_get_error; on the first error it logs
one line and breaks out of the loop.  When the list is exhausted, running
became false and the loop exits normally. -/
def waylandLoop : List Bool → List Ev
  | [] => []
  | e :: rest =>
      if e then [Ev.logWrite "[ERROR] Wayland display error."]
      else waylandLoop rest

/-- main of the Wayland source lines 251 to 325, as (event trace, exit
code).  Unlike the X11 main, createWindow failure is followed by
destroyWindow before returning EXIT_FAILURE, and after the loop the
renderer is destroyed, the window destroyed, and EXIT_SUCCESS returned
whether or not the loop ended on a display error. -/
def mainWayland (env : WaylandEnv) : List Ev × Nat :=
  if !env.loggerStartOk then ([], 1)
  else if !windowOkW env then (createWindowEvsW env ++ [Ev.destroyWindow], 1)
  else if !env.rendererInitOk then
    (createWindowEvsW env ++
      [Ev.logWrite ("[ERROR] " ++ env.initErrMsg), Ev.destroyWindow], 1)
  else if !(getSupportedPhysicalDevices env.physicalDevices env.capable).1 then
    (createWindowEvsW env ++
      [Ev.logWrite ("[ERROR] " ++ env.devicesErrMsg),
       Ev.rendererDestroy, Ev.destroyWindow], 1)
  else
    let supported := (getSupportedPhysicalDevices env.physicalDevices env.capable).2
    let infoEvs := Ev.logWrite "[INFO] Found supported Vulkan physical devices:" ::
      deviceInfoLogs supported
    if !env.createLogicalOk then
      (createWindowEvsW env ++ infoEvs ++
        [Ev.createLogical (supported.headD 0),
         Ev.logWrite ("[ERROR] " ++ env.logicalErrMsg),
         Ev.rendererDestroy, Ev.destroyWindow], 1)
    else
      (createWindowEvsW env ++ infoEvs ++
        [Ev.createLogical (supported.headD 0),
         selectedDeviceLog (supported.headD 0)] ++
        waylandLoop env.loopErrors ++
        [Ev.rendererDestroy, Ev.destroyWindow], 0)

/-- Environment of the macOS AppDelegate Vulkan setup (initializeVulkan). -/
structure MacEnv where
  rendererInitOk : Bool
  initErrMsg : String
  physicalDevices : List Nat
  capable : Nat → Bool
  devicesErrMsg : String
  createLogicalOk : Bool
  logicalErrMsg : String

/-- initializeVulkan of the macOS source lines 110 to 156, as the event
trace it produces; each failure path logs, tears down what was created and
asks the app to terminate. -/
def macInitializeVulkan (env : MacEnv) : List Ev :=
  if !env.rendererInitOk then
    [Ev.logWrite ("[ERROR] " ++ env.initErrMsg), Ev.terminate]
  else if !(getSupportedPhysicalDevices env.physicalDevices env.capable).1 then
    [Ev.logWrite ("[ERROR] " ++ env.devicesErrMsg),
     Ev.rendererDestroy, Ev.terminate]
  else
    let supported := (getSupportedPhysicalDevices env.physicalDevices env.capable).2
    let infoEvs := Ev.logWrite "[INFO] Found supported Vulkan physical devices:" ::
      deviceInfoLogs supported
    if !env.createLogicalOk then
      infoEvs ++
        [Ev.createLogical (supported.headD 0),
         Ev.logWrite ("[ERROR] " ++ env.logicalErrMsg),
         Ev.rendererDestroy, Ev.terminate]
    else
      infoEvs ++
        [Ev.createLogical (supported.headD 0),
         selectedDeviceLog (supported.headD 0)]

/-- The stored drawable extent of the Wayland AppData (lines 28 to 29). -/
structure WlExtent where
  width : Int
  height : Int
deriving DecidableEq, Repr

/-- The extent AppData holds when the main loop is reached: the in-class
initializers give 800 x 600, and createWindow stores the same 800 x 600 it
is called with before any configure event arrives. -/
def appInitExtent : WlExtent :=
  ⟨800, 600⟩

/-- xdgToplevelConfigure of the Wayland source lines 95 to 102: the stored
extent is overwritten only when the compositor reports both dimensions
strictly positive. -/
def xdgToplevelConfigure (e : WlExtent) (w h : Int) : WlExtent :=
  if 0 < w ∧ 0 < h then ⟨w, h⟩ else e

/-- Fold a sequence of xdg-toplevel configure events over the stored
extent. -/
def runConfigures : WlExtent → List (Int × Int) → WlExtent
  | e, [] => e
  | e, (w, h) :: rest => runConfigures (xdgToplevelConfigure e w h) rest

/-- First occurrence test: scanning the trace, the renderer is destroyed
before the native window resources are (true also when the window is never
destroyed). -/
def rendererDestroyedBeforeWindow : List Ev → Bool
  | [] => true
  | Ev.destroyWindow :: _ => false
  | Ev.rendererDestroy :: _ => true
  | _ :: rest => rendererDestroyedBeforeWindow rest

theorem createWindowEvsX_of_ok (env : X11Env) (h : windowOkX env = true) :
    createWindowEvsX env = [] := by
  simp only [windowOkX, Bool.and_eq_true] at h
  simp [createWindowEvsX, h.1, h.2]

theorem createWindowEvsW_of_ok (env : WaylandEnv) (h : windowOkW env = true) :
    createWindowEvsW env = [] := by
  simp only [windowOkW, Bool.and_eq_true] at h
  obtain ⟨⟨⟨⟨⟨h1, h2⟩, h3⟩, h4⟩, h5⟩, h6⟩ := h
  simp [createWindowEvsW, h1, h2, h3, h4, h5, h6]

theorem rdbw_deviceInfoLogs (ds : List Nat) (rest : List Ev) :
    rendererDestroyedBeforeWindow (deviceInfoLogs ds ++ rest) =
      rendererDestroyedBeforeWindow rest := by
  induction ds with
  | nil => rfl
  | cons d ds ih =>
      simpa [deviceInfoLogs, rendererDestroyedBeforeWindow] using ih

theorem rdbw_waylandLoop (bs : List Bool) (rest : List Ev) :
    rendererDestroyedBeforeWindow (waylandLoop bs ++ rest) =
      rendererDestroyedBeforeWindow rest := by
  induction bs with
  | nil => rfl
  | cons b bs ih =>
      cases b <;> simp [waylandLoop, rendererDestroyedBeforeWindow, ih]

theorem errLog_mem_waylandLoop (bs : List Bool) (h : true ∈ bs) :
    Ev.logWrite "[ERROR] Wayland display error." ∈ waylandLoop bs := by
  induction bs with
  | nil => cases h
  | cons b bs ih =>
      cases b
      · exact ih (by simpa using h)
      · simp [waylandLoop]

theorem runConfigures_positive (events : List (Int × Int)) :
    ∀ e : WlExtent, 0 < e.width → 0 < e.height →
      0 < (runConfigures e events).width ∧ 0 < (runConfigures e events).height := by
  induction events with
  | nil => intro e hw hh; exact ⟨hw, hh⟩
  | cons p rest ih =>
      intro e hw hh
      obtain ⟨w, h⟩ := p
      by_cases hpos : 0 < w ∧ 0 < h
      · simpa [runConfigures, xdgToplevelConfigure, hpos] using
          ih ⟨w, h⟩ hpos.1 hpos.2
      · simpa [runConfigures, xdgToplevelConfigure, hpos] using ih e hw hh

/-- A concrete all-successful X11 environment, for witnesses. -/
def x11EnvEx : X11Env :=
  ⟨true, true, true, true, "", [5, 9], fun _ => true, "", true, ""⟩

/-- A concrete all-successful Wayland environment whose event loop hits a
display error on its second iteration, for witnesses and counterexamples. -/
def waylandEnvEx : WaylandEnv :=
  ⟨true, true, true, true, true, true, true, true, "", [7], fun _ => true,
   "", true, "", [false, true]⟩

/-- A concrete all-successful macOS environment, for witnesses. -/
def macEnvEx : MacEnv :=
  ⟨true, "", [4], fun _ => true, "", true, ""⟩

/-- applicationWillTerminate of the macOS source lines 163 to 168: with
the app data still installed it destroys the renderer.  Cocoa invokes this
delegate callback during termination, before it tears the window and its
layer down. -/
def macApplicationWillTerminate : List Ev :=
  [Ev.rendererDestroy]

/-- The in-src event trace of a macOS run from initializeVulkan to
process termination: the Vulkan setup events followed by the
applicationWillTerminate delegate callback.  No in-src macOS code destroys
the native window or layer; Cocoa reclaims them only after this trace. -/
def macRunTrace (env : MacEnv) : List Ev :=
  macInitializeVulkan env ++ macApplicationWillTerminate

theorem destroyWindow_not_mem_deviceInfoLogs (ds : List Nat) :
    Ev.destroyWindow ∉ deviceInfoLogs ds := by
  simp [deviceInfoLogs]

/-- C3 counterexample: in the Wayland composition root, a fatal platform
display error during the event loop logs a human-readable message but the
process then exits with status 0 (EXIT_SUCCESS), not a nonzero status as
the claim states. -/
theorem c3_counterexample :
    (mainWayland waylandEnvEx).2 = 0 ∧
    Ev.logWrite "[ERROR] Wayland display error." ∈ (mainWayland waylandEnvEx).1 := by
  constructor
  · rfl
  · decide

/-- C3 (amended): on a fatal platform display error during the Wayland
event loop (the fatal runtime condition reached after startup in these
sources), the process logs a human-readable message while the logger is
still alive and then exits with status ZERO, not a nonzero status. -/
theorem c3_fatal_runtime_logs_then_exits_zero (env : WaylandEnv)
    (h1 : env.loggerStartOk = true) (h2 : windowOkW env = true)
    (h3 : env.rendererInitOk = true)
    (h4 : (getSupportedPhysicalDevices env.physicalDevices env.capable).1 = true)
    (h5 : env.createLogicalOk = true)
    (h6 : true ∈ env.loopErrors) :
    Ev.logWrite "[ERROR] Wayland display error." ∈ (mainWayland env).1 ∧
    (mainWayland env).2 = 0 := by
  constructor
  · simp only [mainWayland, h1, h2, h3, h4, h5, Bool.not_true, Bool.false_eq_true,
      if_false]
    simp [List.mem_append, errLog_mem_waylandLoop env.loopErrors h6]
  · simp [mainWayland, h1, h2, h3, h4, h5]

/-- Witness for the amended C3 at the concrete Wayland environment. -/
theorem c3_fatal_runtime_witness :
    Ev.logWrite "[ERROR] Wayland display error." ∈ (mainWayland waylandEnvEx).1 ∧
    (mainWayland waylandEnvEx).2 = 0 :=
  c3_fatal_runtime_logs_then_exits_zero waylandEnvEx rfl rfl rfl rfl rfl
    (by decide)

/-- C6: in both Linux composition roots, the process exit code is 0
exactly when every startup step succeeds (logger destination opened,
native window and surface created, renderer initialised, a capable device
found, logical device created); any of those failing aborts the whole
process with a nonzero exit code. -/
theorem c6_exit_codes :
    (∀ env : X11Env, (mainX11 env).2 = 0 ↔
        (env.loggerStartOk = true ∧ windowOkX env = true ∧
         env.rendererInitOk = true ∧
         (getSupportedPhysicalDevices env.physicalDevices env.capable).1 = true ∧
         env.createLogicalOk = true)) ∧
    (∀ env : WaylandEnv, (mainWayland env).2 = 0 ↔
        (env.loggerStartOk = true ∧ windowOkW env = true ∧
         env.rendererInitOk = true ∧
         (getSupportedPhysicalDevices env.physicalDevices env.capable).1 = true ∧
         env.createLogicalOk = true)) := by
  constructor
  · intro env
    cases h1 : env.loggerStartOk <;>
    cases h2 : windowOkX env <;>
    cases h3 : env.rendererInitOk <;>
    cases h4 : (getSupportedPhysicalDevices env.physicalDevices env.capable).1 <;>
    cases h5 : env.createLogicalOk <;>
      simp [mainX11, h1, h2, h3, h4, h5]
  · intro env
    cases h1 : env.loggerStartOk <;>
    cases h2 : windowOkW env <;>
    cases h3 : env.rendererInitOk <;>
    cases h4 : (getSupportedPhysicalDevices env.physicalDevices env.capable).1 <;>
    cases h5 : env.createLogicalOk <;>
      simp [mainWayland, h1, h2, h3, h4, h5]

/-- C7: in every platform composition root (X11, Wayland, macOS), the
logical device is created from element 0 of the list the capability filter
returns, i.e. from the first capability-satisfying device in enumeration
order. -/
theorem c7_first_supported_device_selected :
    (∀ (env : X11Env) (d : Nat) (ds : List Nat),
        env.loggerStartOk = true → windowOkX env = true →
        env.rendererInitOk = true →
        env.physicalDevices.filter env.capable = d :: ds →
        Ev.createLogical d ∈ (mainX11 env).1) ∧
    (∀ (env : WaylandEnv) (d : Nat) (ds : List Nat),
        env.loggerStartOk = true → windowOkW env = true →
        env.rendererInitOk = true →
        env.physicalDevices.filter env.capable = d :: ds →
        Ev.createLogical d ∈ (mainWayland env).1) ∧
    (∀ (env : MacEnv) (d : Nat) (ds : List Nat),
        env.rendererInitOk = true →
        env.physicalDevices.filter env.capable = d :: ds →
        Ev.createLogical d ∈ macInitializeVulkan env) := by
  refine ⟨?_, ?_, ?_⟩
  · intro env d ds h1 h2 h3 hf
    have hget : getSupportedPhysicalDevices env.physicalDevices env.capable =
        (true, d :: ds) := by
      simp [getSupportedPhysicalDevices, hf]
    cases h5 : env.createLogicalOk <;>
      simp [mainX11, h1, h2, h3, hget, h5]
  · intro env d ds h1 h2 h3 hf
    have hget : getSupportedPhysicalDevices env.physicalDevices env.capable =
        (true, d :: ds) := by
      simp [getSupportedPhysicalDevices, hf]
    cases h5 : env.createLogicalOk <;>
      simp [mainWayland, h1, h2, h3, hget, h5]
  · intro env d ds h1 hf
    have hget : getSupportedPhysicalDevices env.physicalDevices env.capable =
        (true, d :: ds) := by
      simp [getSupportedPhysicalDevices, hf]
    cases h5 : env.createLogicalOk <;>
      simp [macInitializeVulkan, h1, hget, h5]

/-- Witness for C7 at concrete environments on all three platforms. -/
theorem c7_first_supported_device_witness :
    Ev.createLogical 5 ∈ (mainX11 x11EnvEx).1 ∧
    Ev.createLogical 7 ∈ (mainWayland waylandEnvEx).1 ∧
    Ev.createLogical 4 ∈ macInitializeVulkan macEnvEx :=
  ⟨c7_first_supported_device_selected.1 x11EnvEx 5 [9] rfl rfl rfl rfl,
   c7_first_supported_device_selected.2.1 waylandEnvEx 7 [] rfl rfl rfl rfl,
   c7_first_supported_device_selected.2.2 macEnvEx 4 [] rfl rfl⟩

/-- C8: on every program path on which Renderer::init succeeded, the
renderer is destroyed before the native window/surface/display resources
are.  In both Linux composition roots destroyWindow does occur on every
such path and the first of the two teardown events in the trace is always
the renderer one; in the macOS root no in-src code destroys the window or
layer at all (Cocoa reclaims them only after applicationWillTerminate,
which destroys the renderer, has returned), so over the whole in-src run
trace the renderer teardown precedes any window teardown there as well. -/
theorem c8_renderer_destroyed_before_window :
    (∀ env : X11Env,
        env.loggerStartOk = true → windowOkX env = true →
        env.rendererInitOk = true →
        Ev.destroyWindow ∈ (mainX11 env).1 ∧
        rendererDestroyedBeforeWindow (mainX11 env).1 = true) ∧
    (∀ env : WaylandEnv,
        env.loggerStartOk = true → windowOkW env = true →
        env.rendererInitOk = true →
        Ev.destroyWindow ∈ (mainWayland env).1 ∧
        rendererDestroyedBeforeWindow (mainWayland env).1 = true) ∧
    (∀ env : MacEnv,
        Ev.destroyWindow ∉ macRunTrace env ∧
        rendererDestroyedBeforeWindow (macRunTrace env) = true) := by
  refine ⟨?_, ?_, ?_⟩
  · intro env h1 h2 h3
    cases h4 : (getSupportedPhysicalDevices env.physicalDevices env.capable).1 <;>
    cases h5 : env.createLogicalOk <;>
      simp [mainX11, h1, h2, h3, h4, h5, createWindowEvsX_of_ok env h2,
        selectedDeviceLog, rendererDestroyedBeforeWindow, rdbw_deviceInfoLogs]
  · intro env h1 h2 h3
    cases h4 : (getSupportedPhysicalDevices env.physicalDevices env.capable).1 <;>
    cases h5 : env.createLogicalOk <;>
      simp [mainWayland, h1, h2, h3, h4, h5, createWindowEvsW_of_ok env h2,
        selectedDeviceLog, rendererDestroyedBeforeWindow, rdbw_deviceInfoLogs,
        rdbw_waylandLoop]
  · intro env
    cases h3 : env.rendererInitOk <;>
    cases h4 : (getSupportedPhysicalDevices env.physicalDevices env.capable).1 <;>
    cases h5 : env.createLogicalOk <;>
      exact ⟨by
          simp [macRunTrace, macInitializeVulkan, macApplicationWillTerminate,
            h3, h4, h5, selectedDeviceLog, destroyWindow_not_mem_deviceInfoLogs],
        by
          simp [macRunTrace, macInitializeVulkan, macApplicationWillTerminate,
            h3, h4, h5, selectedDeviceLog, rendererDestroyedBeforeWindow,
            rdbw_deviceInfoLogs]⟩

/-- Witness for C8 at the concrete all-successful environments on all
three platforms. -/
theorem c8_renderer_destroyed_before_window_witness :
    (Ev.destroyWindow ∈ (mainX11 x11EnvEx).1 ∧
      rendererDestroyedBeforeWindow (mainX11 x11EnvEx).1 = true) ∧
    (Ev.destroyWindow ∈ (mainWayland waylandEnvEx).1 ∧
      rendererDestroyedBeforeWindow (mainWayland waylandEnvEx).1 = true) ∧
    (Ev.destroyWindow ∉ macRunTrace macEnvEx ∧
      rendererDestroyedBeforeWindow (macRunTrace macEnvEx) = true) :=
  ⟨c8_renderer_destroyed_before_window.1 x11EnvEx rfl rfl rfl,
   c8_renderer_destroyed_before_window.2.1 waylandEnvEx rfl rfl rfl,
   c8_renderer_destroyed_before_window.2.2 macEnvEx⟩

/-- C9: whenever getSupportedPhysicalDevices reports success, the returned
device list is non-empty, so the unguarded element-0 access the
composition roots perform on it is in bounds. -/
theorem c9_supported_devices_nonempty (all : List Nat) (capable : Nat → Bool)
    (h : (getSupportedPhysicalDevices all capable).1 = true) :
    (getSupportedPhysicalDevices all capable).2 ≠ [] ∧
    0 < (getSupportedPhysicalDevices all capable).2.length := by
  have hne : all.filter capable ≠ [] := by
    simpa [getSupportedPhysicalDevices] using h
  exact ⟨by simpa [getSupportedPhysicalDevices] using hne,
    by simpa [getSupportedPhysicalDevices, List.length_pos] using hne⟩

/-- Witness for C9 at a concrete device list and capability predicate. -/
theorem c9_supported_devices_nonempty_witness :
    (getSupportedPhysicalDevices [3] (fun _ => true)).2 ≠ [] ∧
    0 < (getSupportedPhysicalDevices [3] (fun _ => true)).2.length :=
  c9_supported_devices_nonempty [3] (fun _ => true) rfl

/-- C10: the Wayland roots stored drawable extent is strictly positive in
both dimensions after any sequence of xdg-toplevel configure events from
the 800 x 600 initial value, and a configure event whose width or height
is not positive leaves the stored extent unchanged. -/
theorem c10_extent_always_positive :
    (∀ events : List (Int × Int),
        0 < (runConfigures appInitExtent events).width ∧
        0 < (runConfigures appInitExtent events).height) ∧
    (∀ (e : WlExtent) (w h : Int), ¬(0 < w ∧ 0 < h) →
        xdgToplevelConfigure e w h = e) := by
  constructor
  · intro events
    exact runConfigures_positive events appInitExtent (by decide) (by decide)
  · intro e w h hnp
    simp [xdgToplevelConfigure, hnp]

/-- Witness for C10: a resize to 1024 x 768 followed by a zero-extent
configure leaves the extent positive, and a zero-width configure changes
nothing. -/
theorem c10_extent_always_positive_witness :
    (0 < (runConfigures appInitExtent [(1024, 768), (0, 0)]).width ∧
      0 < (runConfigures appInitExtent [(1024, 768), (0, 0)]).height) ∧
    xdgToplevelConfigure ⟨800, 600⟩ 0 5 = ⟨800, 600⟩ :=
  ⟨c10_extent_always_positive.1 [(1024, 768), (0, 0)],
   c10_extent_always_positive.2 ⟨800, 600⟩ 0 5 (by decide)⟩

end StringWiggler
